import Mathlib

/-!
Verification of the trait-inference and scoring engine of the
Social-engineering-profiles repository (`src/services/BayesianService`-style
module, `part_002` of the source tree).

The embedding follows the TypeScript source:
* the static prior / likelihood tables become lists of structures with
  rational number entries (the source literals are exact decimals);
* JavaScript `number` arithmetic is idealised as real arithmetic, with
  `Math.pow(multiplier, weight)` embedded as `Real.rpow`;
* a JavaScript `Map` built by inserting keys in iteration order is embedded
  as an association list in the same order;
* `Array.prototype.sort` with a numeric comparator is embedded as
  `List.insertionSort` (a stable sorted permutation, matching the
  ECMAScript contract);
* the falsiness checks (`!field`) of the autocomplete guards become
  `= ""` for string fields, `= []` for list fields and `= 0` for the
  numeric `emotionVsLogic` field.
-/

namespace SocialProfiler

/-- `PriorProbability` record from `types/Character.ts`. -/
structure PriorProbability where
  trait : String
  category : String
  probability : ℚ
deriving DecidableEq, Repr

/-- `LikelihoodMultiplier` record from `types/Character.ts`. -/
structure LikelihoodMultiplier where
  evidence : String
  trait : String
  multiplier : ℚ
deriving DecidableEq, Repr

/-- `EvidenceVariable` record: an asserted trait together with the weight
(the source calls the weight `probability`).  Weights are JS numbers,
idealised as reals. -/
structure EvidenceVariable where
  trait : String
  probability : ℝ

/-- `PRIORS` rows for category `introversionExtroversion`. -/
def priors_introversionExtroversion : List PriorProbability := [
  ⟨"Highly Introverted", "introversionExtroversion", 0.10⟩,
  ⟨"Introverted", "introversionExtroversion", 0.30⟩,
  ⟨"Ambivert", "introversionExtroversion", 0.40⟩,
  ⟨"Extroverted", "introversionExtroversion", 0.15⟩,
  ⟨"Highly Extroverted", "introversionExtroversion", 0.05⟩]

/-- `PRIORS` rows for category `attachmentStyle`. -/
def priors_attachmentStyle : List PriorProbability := [
  ⟨"Secure", "attachmentStyle", 0.55⟩,
  ⟨"Anxious", "attachmentStyle", 0.20⟩,
  ⟨"Avoidant", "attachmentStyle", 0.20⟩,
  ⟨"Fearful-Avoidant", "attachmentStyle", 0.05⟩]

/-- `PRIORS` rows for category `trustLevel`. -/
def priors_trustLevel : List PriorProbability := [
  ⟨"Highly Skeptical", "trustLevel", 0.05⟩,
  ⟨"Skeptical", "trustLevel", 0.25⟩,
  ⟨"Neutral", "trustLevel", 0.40⟩,
  ⟨"Trusting", "trustLevel", 0.25⟩,
  ⟨"Highly Trusting", "trustLevel", 0.05⟩]

/-- `PRIORS` rows for category `vulnerabilities`. -/
def priors_vulnerabilities : List PriorProbability := [
  ⟨"Fear of abandonment", "vulnerabilities", 0.15⟩,
  ⟨"Need for validation", "vulnerabilities", 0.30⟩,
  ⟨"Fear of rejection", "vulnerabilities", 0.25⟩,
  ⟨"Overthinking", "vulnerabilities", 0.35⟩,
  ⟨"Imposter syndrome", "vulnerabilities", 0.20⟩,
  ⟨"Perfectionism", "vulnerabilities", 0.15⟩,
  ⟨"Need for control", "vulnerabilities", 0.10⟩,
  ⟨"Fear of failure", "vulnerabilities", 0.30⟩,
  ⟨"Fear of intimacy", "vulnerabilities", 0.15⟩,
  ⟨"Fear of conflict", "vulnerabilities", 0.25⟩,
  ⟨"Need for reassurance", "vulnerabilities", 0.20⟩,
  ⟨"Fear of being irrelevant", "vulnerabilities", 0.15⟩]

/-- `PRIORS` rows for category `socialRole`. -/
def priors_socialRole : List PriorProbability := [
  ⟨"Leader", "socialRole", 0.10⟩,
  ⟨"Follower", "socialRole", 0.50⟩,
  ⟨"Connector", "socialRole", 0.15⟩,
  ⟨"Outlier", "socialRole", 0.15⟩,
  ⟨"Gatekeeper", "socialRole", 0.05⟩,
  ⟨"Mediator", "socialRole", 0.05⟩]

/-- `PRIORS` rows for category `communicationStyle`. -/
def priors_communicationStyle : List PriorProbability := [
  ⟨"Direct", "communicationStyle", 0.20⟩,
  ⟨"Indirect", "communicationStyle", 0.25⟩,
  ⟨"Reserved", "communicationStyle", 0.15⟩,
  ⟨"Analytical", "communicationStyle", 0.10⟩,
  ⟨"Emotional", "communicationStyle", 0.15⟩,
  ⟨"Functional", "communicationStyle", 0.05⟩,
  ⟨"Personal", "communicationStyle", 0.05⟩,
  ⟨"Intuitive", "communicationStyle", 0.05⟩]

/-- `PRIORS` rows for category `communicationChannel`. -/
def priors_communicationChannel : List PriorProbability := [
  ⟨"Verbal", "communicationChannel", 0.40⟩,
  ⟨"Written", "communicationChannel", 0.20⟩,
  ⟨"Non-verbal", "communicationChannel", 0.15⟩,
  ⟨"Digital", "communicationChannel", 0.25⟩]

/-- `PRIORS` rows for category `desires`. -/
def priors_desires : List PriorProbability := [
  ⟨"Belonging", "desires", 0.30⟩,
  ⟨"Achievement", "desires", 0.25⟩,
  ⟨"Recognition", "desires", 0.15⟩,
  ⟨"Power", "desires", 0.10⟩,
  ⟨"Security", "desires", 0.20⟩,
  ⟨"Freedom", "desires", 0.15⟩,
  ⟨"Understanding", "desires", 0.10⟩,
  ⟨"Being understood", "desires", 0.25⟩,
  ⟨"Creativity", "desires", 0.10⟩,
  ⟨"Harmony", "desires", 0.15⟩,
  ⟨"Growth", "desires", 0.15⟩,
  ⟨"Helping others", "desires", 0.10⟩]

/-- `PRIORS` rows for category `fears`. -/
def priors_fears : List PriorProbability := [
  ⟨"Rejection", "fears", 0.30⟩,
  ⟨"Failure", "fears", 0.25⟩,
  ⟨"Abandonment", "fears", 0.15⟩,
  ⟨"Inadequacy", "fears", 0.20⟩,
  ⟨"Criticism", "fears", 0.15⟩,
  ⟨"Being controlled", "fears", 0.10⟩,
  ⟨"Being irrelevant", "fears", 0.15⟩,
  ⟨"Uncertainty", "fears", 0.20⟩,
  ⟨"Vulnerability", "fears", 0.15⟩,
  ⟨"Conflict", "fears", 0.25⟩,
  ⟨"Intimacy", "fears", 0.10⟩,
  ⟨"Being misunderstood", "fears", 0.20⟩]

/-- `PRIORS` rows for category `trustTriggers`. -/
def priors_trustTriggers : List PriorProbability := [
  ⟨"Shared interests", "trustTriggers", 0.25⟩,
  ⟨"Vulnerability disclosure", "trustTriggers", 0.15⟩,
  ⟨"Consistent behavior", "trustTriggers", 0.20⟩,
  ⟨"Shared values", "trustTriggers", 0.15⟩,
  ⟨"Active listening", "trustTriggers", 0.10⟩,
  ⟨"Shared experiences", "trustTriggers", 0.20⟩,
  ⟨"Relatability", "trustTriggers", 0.25⟩,
  ⟨"Shared emotional language", "trustTriggers", 0.15⟩,
  ⟨"Shared humor", "trustTriggers", 0.15⟩,
  ⟨"Perceived competence", "trustTriggers", 0.10⟩,
  ⟨"Shared adversity", "trustTriggers", 0.10⟩,
  ⟨"Perceived authenticity", "trustTriggers", 0.20⟩]

/-- `PRIORS` rows for category `emotionVsLogic`. -/
def priors_emotionVsLogic : List PriorProbability := [
  ⟨"Highly emotional", "emotionVsLogic", 0.10⟩,
  ⟨"Moderately emotional", "emotionVsLogic", 0.25⟩,
  ⟨"Balanced", "emotionVsLogic", 0.30⟩,
  ⟨"Moderately logical", "emotionVsLogic", 0.25⟩,
  ⟨"Highly logical", "emotionVsLogic", 0.10⟩]

/-- `PRIORS` rows for category `decisionPacing`. -/
def priors_decisionPacing : List PriorProbability := [
  ⟨"Very slow", "decisionPacing", 0.10⟩,
  ⟨"Slow", "decisionPacing", 0.20⟩,
  ⟨"Moderate", "decisionPacing", 0.40⟩,
  ⟨"Fast", "decisionPacing", 0.20⟩,
  ⟨"Very fast", "decisionPacing", 0.10⟩]

/-- `PRIORS` rows for category `identityAnchors`. -/
def priors_identityAnchors : List PriorProbability := [
  ⟨"Professional role", "identityAnchors", 0.25⟩,
  ⟨"Relationships", "identityAnchors", 0.20⟩,
  ⟨"Beliefs/values", "identityAnchors", 0.15⟩,
  ⟨"Skills/abilities", "identityAnchors", 0.15⟩,
  ⟨"Group membership", "identityAnchors", 0.10⟩,
  ⟨"Personal history", "identityAnchors", 0.10⟩,
  ⟨"Physical attributes", "identityAnchors", 0.05⟩]

/-- The `PRIORS` table of the source, transcribed row by row and
concatenated in declaration order. -/
def PRIORS : List PriorProbability :=
  priors_introversionExtroversion ++ priors_attachmentStyle ++ priors_trustLevel ++ priors_vulnerabilities ++ priors_socialRole ++ priors_communicationStyle ++ priors_communicationChannel ++ priors_desires ++ priors_fears ++ priors_trustTriggers ++ priors_emotionVsLogic ++ priors_decisionPacing ++ priors_identityAnchors

/-- `LIKELIHOOD_MULTIPLIERS` rows with evidence `Highly Introverted`. -/
def lik_HighlyIntroverted : List LikelihoodMultiplier := [
  ⟨"Highly Introverted", "Avoidant", 1.8⟩,
  ⟨"Highly Introverted", "Fearful-Avoidant", 1.5⟩,
  ⟨"Highly Introverted", "Skeptical", 1.3⟩,
  ⟨"Highly Introverted", "Highly Skeptical", 1.4⟩,
  ⟨"Highly Introverted", "Fear of rejection", 1.5⟩,
  ⟨"Highly Introverted", "Overthinking", 1.7⟩,
  ⟨"Highly Introverted", "Outlier", 2.0⟩,
  ⟨"Highly Introverted", "Reserved", 2.2⟩,
  ⟨"Highly Introverted", "Analytical", 1.6⟩,
  ⟨"Highly Introverted", "Written", 1.8⟩,
  ⟨"Highly Introverted", "Being misunderstood", 1.5⟩,
  ⟨"Highly Introverted", "Slow", 1.6⟩,
  ⟨"Highly Introverted", "Very slow", 1.4⟩]

/-- `LIKELIHOOD_MULTIPLIERS` rows with evidence `Introverted`. -/
def lik_Introverted : List LikelihoodMultiplier := [
  ⟨"Introverted", "Avoidant", 1.4⟩,
  ⟨"Introverted", "Skeptical", 1.2⟩,
  ⟨"Introverted", "Overthinking", 1.5⟩,
  ⟨"Introverted", "Outlier", 1.5⟩,
  ⟨"Introverted", "Reserved", 1.8⟩,
  ⟨"Introverted", "Analytical", 1.4⟩,
  ⟨"Introverted", "Written", 1.5⟩,
  ⟨"Introverted", "Slow", 1.3⟩]

/-- `LIKELIHOOD_MULTIPLIERS` rows with evidence `Extroverted`. -/
def lik_Extroverted : List LikelihoodMultiplier := [
  ⟨"Extroverted", "Secure", 1.3⟩,
  ⟨"Extroverted", "Trusting", 1.4⟩,
  ⟨"Extroverted", "Connector", 1.8⟩,
  ⟨"Extroverted", "Leader", 1.5⟩,
  ⟨"Extroverted", "Direct", 1.6⟩,
  ⟨"Extroverted", "Emotional", 1.4⟩,
  ⟨"Extroverted", "Verbal", 1.7⟩,
  ⟨"Extroverted", "Fast", 1.5⟩]

/-- `LIKELIHOOD_MULTIPLIERS` rows with evidence `Highly Extroverted`. -/
def lik_HighlyExtroverted : List LikelihoodMultiplier := [
  ⟨"Highly Extroverted", "Secure", 1.5⟩,
  ⟨"Highly Extroverted", "Trusting", 1.6⟩,
  ⟨"Highly Extroverted", "Highly Trusting", 1.8⟩,
  ⟨"Highly Extroverted", "Connector", 2.0⟩,
  ⟨"Highly Extroverted", "Leader", 1.9⟩,
  ⟨"Highly Extroverted", "Direct", 1.8⟩,
  ⟨"Highly Extroverted", "Emotional", 1.7⟩,
  ⟨"Highly Extroverted", "Verbal", 2.0⟩,
  ⟨"Highly Extroverted", "Recognition", 1.7⟩,
  ⟨"Highly Extroverted", "Fast", 1.6⟩,
  ⟨"Highly Extroverted", "Very fast", 1.8⟩]

/-- `LIKELIHOOD_MULTIPLIERS` rows with evidence `Anxious`. -/
def lik_Anxious : List LikelihoodMultiplier := [
  ⟨"Anxious", "Fear of abandonment", 2.5⟩,
  ⟨"Anxious", "Need for reassurance", 2.2⟩,
  ⟨"Anxious", "Fear of rejection", 2.0⟩,
  ⟨"Anxious", "Overthinking", 1.8⟩,
  ⟨"Anxious", "Emotional", 1.7⟩,
  ⟨"Anxious", "Belonging", 1.9⟩,
  ⟨"Anxious", "Being understood", 1.8⟩,
  ⟨"Anxious", "Vulnerability disclosure", 1.6⟩,
  ⟨"Anxious", "Highly emotional", 1.7⟩,
  ⟨"Anxious", "Moderately emotional", 1.5⟩]

/-- `LIKELIHOOD_MULTIPLIERS` rows with evidence `Avoidant`. -/
def lik_Avoidant : List LikelihoodMultiplier := [
  ⟨"Avoidant", "Fear of intimacy", 2.3⟩,
  ⟨"Avoidant", "Reserved", 1.9⟩,
  ⟨"Avoidant", "Freedom", 1.8⟩,
  ⟨"Avoidant", "Being controlled", 1.7⟩,
  ⟨"Avoidant", "Outlier", 1.6⟩,
  ⟨"Avoidant", "Moderately logical", 1.4⟩,
  ⟨"Avoidant", "Highly logical", 1.5⟩]

/-- `LIKELIHOOD_MULTIPLIERS` rows with evidence `Fearful-Avoidant`. -/
def lik_FearfulAvoidant : List LikelihoodMultiplier := [
  ⟨"Fearful-Avoidant", "Fear of abandonment", 2.0⟩,
  ⟨"Fearful-Avoidant", "Fear of intimacy", 2.0⟩,
  ⟨"Fearful-Avoidant", "Overthinking", 2.1⟩,
  ⟨"Fearful-Avoidant", "Highly Skeptical", 1.9⟩,
  ⟨"Fearful-Avoidant", "Vulnerability", 1.8⟩]

/-- `LIKELIHOOD_MULTIPLIERS` rows with evidence `Secure`. -/
def lik_Secure : List LikelihoodMultiplier := [
  ⟨"Secure", "Trusting", 1.8⟩,
  ⟨"Secure", "Consistent behavior", 1.6⟩,
  ⟨"Secure", "Balanced", 1.7⟩,
  ⟨"Secure", "Moderate", 1.5⟩]

/-- `LIKELIHOOD_MULTIPLIERS` rows with evidence `Highly Skeptical`. -/
def lik_HighlySkeptical : List LikelihoodMultiplier := [
  ⟨"Highly Skeptical", "Fear of betrayal", 2.2⟩,
  ⟨"Highly Skeptical", "Reserved", 1.8⟩,
  ⟨"Highly Skeptical", "Perceived authenticity", 0.5⟩]

/-- `LIKELIHOOD_MULTIPLIERS` rows with evidence `Trusting`. -/
def lik_Trusting : List LikelihoodMultiplier := [
  ⟨"Trusting", "Vulnerability disclosure", 1.7⟩,
  ⟨"Trusting", "Shared experiences", 1.6⟩]

/-- `LIKELIHOOD_MULTIPLIERS` rows with evidence `Leader`. -/
def lik_Leader : List LikelihoodMultiplier := [
  ⟨"Leader", "Power", 2.0⟩,
  ⟨"Leader", "Achievement", 1.8⟩,
  ⟨"Leader", "Direct", 1.7⟩,
  ⟨"Leader", "Fast", 1.6⟩]

/-- `LIKELIHOOD_MULTIPLIERS` rows with evidence `Follower`. -/
def lik_Follower : List LikelihoodMultiplier := [
  ⟨"Follower", "Security", 1.6⟩,
  ⟨"Follower", "Belonging", 1.5⟩]

/-- `LIKELIHOOD_MULTIPLIERS` rows with evidence `Connector`. -/
def lik_Connector : List LikelihoodMultiplier := [
  ⟨"Connector", "Relatability", 1.9⟩,
  ⟨"Connector", "Shared interests", 1.7⟩,
  ⟨"Connector", "Personal", 1.8⟩]

/-- `LIKELIHOOD_MULTIPLIERS` rows with evidence `Outlier`. -/
def lik_Outlier : List LikelihoodMultiplier := [
  ⟨"Outlier", "Being misunderstood", 1.8⟩,
  ⟨"Outlier", "Freedom", 1.7⟩,
  ⟨"Outlier", "Being irrelevant", 1.6⟩]

/-- `LIKELIHOOD_MULTIPLIERS` rows with evidence `Direct`. -/
def lik_Direct : List LikelihoodMultiplier := [
  ⟨"Direct", "Conflict", 1.4⟩,
  ⟨"Direct", "Trusting", 1.3⟩]

/-- `LIKELIHOOD_MULTIPLIERS` rows with evidence `Indirect`. -/
def lik_Indirect : List LikelihoodMultiplier := [
  ⟨"Indirect", "Conflict", 0.7⟩,
  ⟨"Indirect", "Fear of rejection", 1.5⟩]

/-- `LIKELIHOOD_MULTIPLIERS` rows with evidence `Reserved`. -/
def lik_Reserved : List LikelihoodMultiplier := [
  ⟨"Reserved", "Being misunderstood", 1.6⟩,
  ⟨"Reserved", "Vulnerability", 1.5⟩]

/-- `LIKELIHOOD_MULTIPLIERS` rows with evidence `Analytical`. -/
def lik_Analytical : List LikelihoodMultiplier := [
  ⟨"Analytical", "Highly logical", 2.0⟩,
  ⟨"Analytical", "Moderately logical", 1.7⟩]

/-- `LIKELIHOOD_MULTIPLIERS` rows with evidence `Emotional`. -/
def lik_Emotional : List LikelihoodMultiplier := [
  ⟨"Emotional", "Highly emotional", 2.0⟩,
  ⟨"Emotional", "Moderately emotional", 1.7⟩]

/-- The `LIKELIHOOD_MULTIPLIERS` table of the source, transcribed row
by row and concatenated in declaration order. -/
def LIKELIHOOD_MULTIPLIERS : List LikelihoodMultiplier :=
  lik_HighlyIntroverted ++ lik_Introverted ++ lik_Extroverted ++ lik_HighlyExtroverted ++ lik_Anxious ++ lik_Avoidant ++ lik_FearfulAvoidant ++ lik_Secure ++ lik_HighlySkeptical ++ lik_Trusting ++ lik_Leader ++ lik_Follower ++ lik_Connector ++ lik_Outlier ++ lik_Direct ++ lik_Indirect ++ lik_Reserved ++ lik_Analytical ++ lik_Emotional

/-- `getPrior` of the source: first matching prior, `0.01` fallback. -/
def getPrior (trait category : String) : ℚ :=
  match PRIORS.find? (fun p => p.trait == trait && p.category == category) with
  | some p => p.probability
  | none => 0.01

/-- `getTraitsForCategory` of the source: the prior rows of a category in
table-declaration order. -/
def getTraitsForCategory (category : String) : List PriorProbability :=
  PRIORS.filter (fun p => p.category == category)

/-- `getLikelihoodMultiplier` of the source: first matching multiplier,
`1.0` (no effect) fallback. -/
def getLikelihoodMultiplier (evidence trait : String) : ℚ :=
  match LIKELIHOOD_MULTIPLIERS.find? (fun lm => lm.evidence == evidence && lm.trait == trait) with
  | some lm => lm.multiplier
  | none => 1

noncomputable section

/-- The evidence-application loop shared verbatim by
`calculateNormalizationFactor` and `calculatePosteriors`:
`posterior = trait.probability`, then for each piece of evidence
`posterior *= Math.pow(multiplier, ev.probability)`. -/
def traitScore (t : PriorProbability) (evidence : List EvidenceVariable) : ℝ :=
  evidence.foldl
    (fun posterior ev =>
      posterior * Real.rpow ((getLikelihoodMultiplier ev.trait t.trait : ℚ) : ℝ) ev.probability)
    ((t.probability : ℚ) : ℝ)

/-- `calculateNormalizationFactor` of the source: the sum of the
unnormalized scores of the category's traits. -/
def calculateNormalizationFactor (category : String) (evidence : List EvidenceVariable) : ℝ :=
  (getTraitsForCategory category).foldl (fun nf t => nf + traitScore t evidence) 0

/-- `calculatePosteriors` of the source.  The returned JS `Map` (keys
inserted in trait-table order) is embedded as an association list in the
same order.  Note the guard: the score is divided by the normalization
factor only when the latter is positive. -/
def calculatePosteriors (category : String) (evidence : List EvidenceVariable) : List (String × ℝ) :=
  let normalizationFactor := calculateNormalizationFactor category evidence
  (getTraitsForCategory category).map fun t =>
    (t.trait,
      if normalizationFactor > 0 then traitScore t evidence / normalizationFactor
      else traitScore t evidence)

/-- `findHighestProbabilityTrait` of the source: a fold over the posterior
map starting from `("", 0)`, replacing the accumulator whenever a strictly
higher probability is seen. -/
def findHighestProbabilityTrait (posteriors : List (String × ℝ)) : String × ℝ :=
  posteriors.foldl (fun acc p => if p.2 > acc.2 then p else acc) ("", 0)

/-- `calculateConfidence` of the source: sort the posterior values in
descending order; a map with at most one entry gives confidence `1.0`,
otherwise the confidence is `clamp(0, 1, (p1 - p2) * 3)` for the two
largest values `p1, p2`. -/
def calculateConfidence (posteriors : List (String × ℝ)) : ℝ :=
  let probabilities := List.insertionSort (fun a b : ℝ => a ≥ b) (posteriors.map Prod.snd)
  if probabilities.length ≤ 1 then 1
  else min 1 (max 0 ((probabilities.getD 0 0 - probabilities.getD 1 0) * 3))

/-- `InferenceResult` record from `types/Character.ts`; the `traits`
object (insertion order preserved) is the posterior association list. -/
structure InferenceResult where
  category : String
  traits : List (String × ℝ)
  recommendedTrait : String
  confidence : ℝ

/-- `BayesianInference` record from `types/Character.ts`; the
`Map<string, Map<string, number>>` of posteriors is embedded as an
association list from category to posterior association list. -/
structure BayesianInference where
  priors : List PriorProbability
  likelihoods : List LikelihoodMultiplier
  evidence : List EvidenceVariable
  posteriors : List (String × List (String × ℝ))

/-- `Array.from(new Set(...))` on a list of strings: deduplication keeping
the first occurrence of each element, in order. -/
def dedupKeepFirst (l : List String) : List String :=
  l.foldl (fun acc c => if c ∈ acc then acc else acc ++ [c]) []

/-- `performInference` of the source: posteriors for every category
appearing in the prior table. -/
def performInference (evidence : List EvidenceVariable) : BayesianInference :=
  let categories := dedupKeepFirst (PRIORS.map fun p => p.category)
  { priors := PRIORS
    likelihoods := LIKELIHOOD_MULTIPLIERS
    evidence := evidence
    posteriors := categories.map fun c => (c, calculatePosteriors c evidence) }

/-- `getInferenceResult` of the source: `null` for a category without
posteriors, otherwise the posterior map together with the arg-max trait
and the confidence. -/
def getInferenceResult (inference : BayesianInference) (category : String) : Option InferenceResult :=
  match inference.posteriors.find? (fun p => p.1 == category) with
  | none => none
  | some (_, categoryPosteriors) =>
    some { category := category
           traits := categoryPosteriors
           recommendedTrait := (findHighestProbabilityTrait categoryPosteriors).1
           confidence := calculateConfidence categoryPosteriors }

end

/-! ### The profile record

`Character` from `types/Character.ts`, restricted to the fields the
verified functions read or write (`extractEvidenceFromCharacter`,
`autocompleteCharacter`, `calculateCompatibility`).  Enum-typed fields
hold the enum's string value; a JS-falsy value (`undefined` or `""`,
`[]`, `0`) marks the field as unset, matching the `!field` guards of
`autocompleteCharacter`. -/

/-- `Vulnerability` record (type, probability). -/
structure Vulnerability where
  type : String
  probability : ℝ

/-- `MotivationFactor` record (type, strength). -/
structure MotivationFactor where
  type : String
  strength : ℝ

/-- `InsecurityFactor` record (type, strength). -/
structure InsecurityFactor where
  type : String
  strength : ℝ

/-- `TrustTrigger` record (type, effectiveness). -/
structure TrustTrigger where
  type : String
  effectiveness : ℝ

/-- `IdentityAnchor` record (type, centrality, visibility). -/
structure IdentityAnchor where
  type : String
  centrality : ℝ
  visibility : ℝ

/-- `PsychologicalProfile`, restricted to the fields used by the engine. -/
structure PsychologicalProfile where
  introversionExtroversion : String
  attachmentStyle : String
  trustLevel : String
  likelyVulnerabilities : List Vulnerability

/-- `SocialHierarchyPosition`, restricted to the fields used by the engine. -/
structure SocialHierarchyPosition where
  role : String

/-- `MotivationsInsecurities`, restricted to the fields used by the engine. -/
structure MotivationsInsecurities where
  desires : List MotivationFactor
  fears : List InsecurityFactor

/-- `TrustSignalsVulnerabilityMarkers`, restricted to the fields used by
the engine. -/
structure TrustSignalsVulnerabilityMarkers where
  triggers : List TrustTrigger

/-- `Communication`, restricted to the fields used by the engine. -/
structure Communication where
  primaryStyle : String

/-- `DecisionMaking`, restricted to the fields used by the engine. -/
structure DecisionMaking where
  emotionVsLogic : ℝ
  pacing : String

/-- `IdentityAnchors`, restricted to the fields used by the engine. -/
structure IdentityAnchors where
  coreAnchors : List IdentityAnchor

/-- `Character`, restricted to the sub-records used by the engine. -/
structure Character where
  psychologicalProfile : PsychologicalProfile
  socialHierarchyPosition : SocialHierarchyPosition
  motivationsInsecurities : MotivationsInsecurities
  trustSignalsVulnerabilityMarkers : TrustSignalsVulnerabilityMarkers
  communication : Communication
  decisionMaking : DecisionMaking
  identityAnchors : IdentityAnchors

noncomputable section

instance : DecidableEq Vulnerability := Classical.decEq _

instance : DecidableEq MotivationFactor := Classical.decEq _

instance : DecidableEq InsecurityFactor := Classical.decEq _

instance : DecidableEq TrustTrigger := Classical.decEq _

instance : DecidableEq IdentityAnchor := Classical.decEq _

/-- `extractEvidenceFromCharacter` of the source: each of the five
recognized scalar fields that holds a (truthy) value contributes one
evidence variable of weight `1.0`, in the source's push order. -/
def extractEvidenceFromCharacter (character : Character) : List EvidenceVariable :=
  (if character.psychologicalProfile.introversionExtroversion ≠ "" then
    [⟨character.psychologicalProfile.introversionExtroversion, 1⟩] else [])
  ++ (if character.psychologicalProfile.attachmentStyle ≠ "" then
    [⟨character.psychologicalProfile.attachmentStyle, 1⟩] else [])
  ++ (if character.psychologicalProfile.trustLevel ≠ "" then
    [⟨character.psychologicalProfile.trustLevel, 1⟩] else [])
  ++ (if character.socialHierarchyPosition.role ≠ "" then
    [⟨character.socialHierarchyPosition.role, 1⟩] else [])
  ++ (if character.communication.primaryStyle ≠ "" then
    [⟨character.communication.primaryStyle, 1⟩] else [])

/-- `Object.entries(result.traits).sort(([, a], [, b]) => b - a).slice(0, 3)`:
the three posterior entries with the highest values (stable descending
sort, as guaranteed for `Array.prototype.sort`). -/
def topThree (traits : List (String × ℝ)) : List (String × ℝ) :=
  (List.insertionSort (fun a b : String × ℝ => a.2 ≥ b.2) traits).take 3

/-- The `emotionLogicMap` lookup of `autocompleteCharacter` including its
`|| 0.5` fallback (every mapped value is truthy, so the fallback fires
exactly on the five missing keys). -/
def emotionLogicMap (trait : String) : ℝ :=
  if trait = "Highly emotional" then 0.9
  else if trait = "Moderately emotional" then 0.7
  else if trait = "Balanced" then 0.5
  else if trait = "Moderately logical" then 0.3
  else if trait = "Highly logical" then 0.1
  else 0.5

/-- The psychological-profile block of `autocompleteCharacter`: each of the
four fields is overwritten by the top inference result of its category
exactly when its guard (`!field`) holds; each assignment touches only its
own field, so the sequential mutation of the source is a record update. -/
def fillPsychologicalProfile (inference : BayesianInference)
    (p : PsychologicalProfile) : PsychologicalProfile :=
  { introversionExtroversion :=
      if p.introversionExtroversion = "" then
        match getInferenceResult inference "introversionExtroversion" with
        | some r => r.recommendedTrait
        | none => p.introversionExtroversion
      else p.introversionExtroversion
    attachmentStyle :=
      if p.attachmentStyle = "" then
        match getInferenceResult inference "attachmentStyle" with
        | some r => r.recommendedTrait
        | none => p.attachmentStyle
      else p.attachmentStyle
    trustLevel :=
      if p.trustLevel = "" then
        match getInferenceResult inference "trustLevel" with
        | some r => r.recommendedTrait
        | none => p.trustLevel
      else p.trustLevel
    likelyVulnerabilities :=
      if p.likelyVulnerabilities = [] then
        match getInferenceResult inference "vulnerabilities" with
        | some r => (topThree r.traits).map fun e => ⟨e.1, e.2⟩
        | none => p.likelyVulnerabilities
      else p.likelyVulnerabilities }

/-- The social-hierarchy block of `autocompleteCharacter`. -/
def fillSocialHierarchyPosition (inference : BayesianInference)
    (s : SocialHierarchyPosition) : SocialHierarchyPosition :=
  { role :=
      if s.role = "" then
        match getInferenceResult inference "socialRole" with
        | some r => r.recommendedTrait
        | none => s.role
      else s.role }

/-- The communication block of `autocompleteCharacter`. -/
def fillCommunication (inference : BayesianInference)
    (c : Communication) : Communication :=
  { primaryStyle :=
      if c.primaryStyle = "" then
        match getInferenceResult inference "communicationStyle" with
        | some r => r.recommendedTrait
        | none => c.primaryStyle
      else c.primaryStyle }

/-- The decision-making block of `autocompleteCharacter`:
`emotionVsLogic` is filled through `emotionLogicMap`, `pacing` with the
recommended pacing trait. -/
def fillDecisionMaking (inference : BayesianInference)
    (d : DecisionMaking) : DecisionMaking :=
  { emotionVsLogic :=
      if d.emotionVsLogic = 0 then
        match getInferenceResult inference "emotionVsLogic" with
        | some r => emotionLogicMap r.recommendedTrait
        | none => d.emotionVsLogic
      else d.emotionVsLogic
    pacing :=
      if d.pacing = "" then
        match getInferenceResult inference "decisionPacing" with
        | some r => r.recommendedTrait
        | none => d.pacing
      else d.pacing }

/-- The motivations-and-insecurities block of `autocompleteCharacter`:
top-3 desires/fears as (type, strength) pairs. -/
def fillMotivationsInsecurities (inference : BayesianInference)
    (m : MotivationsInsecurities) : MotivationsInsecurities :=
  { desires :=
      if m.desires = [] then
        match getInferenceResult inference "desires" with
        | some r => (topThree r.traits).map fun e => ⟨e.1, e.2⟩
        | none => m.desires
      else m.desires
    fears :=
      if m.fears = [] then
        match getInferenceResult inference "fears" with
        | some r => (topThree r.traits).map fun e => ⟨e.1, e.2⟩
        | none => m.fears
      else m.fears }

/-- The trust-signals block of `autocompleteCharacter`: top-3 triggers as
(type, effectiveness) pairs. -/
def fillTrustSignalsVulnerabilityMarkers (inference : BayesianInference)
    (t : TrustSignalsVulnerabilityMarkers) : TrustSignalsVulnerabilityMarkers :=
  { triggers :=
      if t.triggers = [] then
        match getInferenceResult inference "trustTriggers" with
        | some r => (topThree r.traits).map fun e => ⟨e.1, e.2⟩
        | none => t.triggers
      else t.triggers }

/-- The identity-anchors block of `autocompleteCharacter`: top-3 anchors
as (type, centrality, default visibility `0.5`) records. -/
def fillIdentityAnchors (inference : BayesianInference)
    (a : IdentityAnchors) : IdentityAnchors :=
  { coreAnchors :=
      if a.coreAnchors = [] then
        match getInferenceResult inference "identityAnchors" with
        | some r => (topThree r.traits).map fun e => ⟨e.1, e.2, 0.5⟩
        | none => a.coreAnchors
      else a.coreAnchors }

/-- `autocompleteCharacter` of the source: deep-copy the input (value
semantics here), extract evidence from the original character, run the
inference once, and fill every unset recognized field.  Each block of the
source's sequential mutation reads and writes only its own sub-record, so
the whole mutation is the simultaneous record update below. -/
def autocompleteCharacter (character : Character) : Character :=
  let inference := performInference (extractEvidenceFromCharacter character)
  { psychologicalProfile := fillPsychologicalProfile inference character.psychologicalProfile
    socialHierarchyPosition := fillSocialHierarchyPosition inference character.socialHierarchyPosition
    motivationsInsecurities := fillMotivationsInsecurities inference character.motivationsInsecurities
    trustSignalsVulnerabilityMarkers :=
      fillTrustSignalsVulnerabilityMarkers inference character.trustSignalsVulnerabilityMarkers
    communication := fillCommunication inference character.communication
    decisionMaking := fillDecisionMaking inference character.decisionMaking
    identityAnchors := fillIdentityAnchors inference character.identityAnchors }

/-- `getIntroversionExtroversionValue` of the source: the five-point
ordinal value of the introversion/extroversion bucket, defaulting to the
ambivert value `2`. -/
def getIntroversionExtroversionValue (ie : String) : ℝ :=
  if ie = "Highly Introverted" then 0
  else if ie = "Introverted" then 1
  else if ie = "Ambivert" then 2
  else if ie = "Extroverted" then 3
  else if ie = "Highly Extroverted" then 4
  else 2

/-- `calculateCompatibility` of the source: four equally weighted factor
scores accumulated into `compatibilityScore` with `totalFactors = 4`. -/
def calculateCompatibility (character1 character2 : Character) : ℝ :=
  let attachmentScore : ℝ :=
    if character1.psychologicalProfile.attachmentStyle = "Secure" ∧
        character2.psychologicalProfile.attachmentStyle = "Secure" then 1
    else if character1.psychologicalProfile.attachmentStyle = "Anxious" ∧
        character2.psychologicalProfile.attachmentStyle = "Avoidant" then 0.3
    else if character1.psychologicalProfile.attachmentStyle = "Avoidant" ∧
        character2.psychologicalProfile.attachmentStyle = "Anxious" then 0.3
    else 0.5
  let introExtroCompat : ℝ :=
    1 - |getIntroversionExtroversionValue character1.psychologicalProfile.introversionExtroversion
          - getIntroversionExtroversionValue character2.psychologicalProfile.introversionExtroversion| / 4
  let communicationScore : ℝ :=
    if character1.communication.primaryStyle = character2.communication.primaryStyle then 1
    else if (character1.communication.primaryStyle = "Direct" ∧
          character2.communication.primaryStyle = "Direct") ∨
        (character1.communication.primaryStyle = "Analytical" ∧
          character2.communication.primaryStyle = "Analytical") then 0.9
    else if (character1.communication.primaryStyle = "Direct" ∧
          character2.communication.primaryStyle = "Indirect") ∨
        (character1.communication.primaryStyle = "Indirect" ∧
          character2.communication.primaryStyle = "Direct") then 0.4
    else 0.6
  let decisionMakingCompat : ℝ :=
    1 - |character1.decisionMaking.emotionVsLogic - character2.decisionMaking.emotionVsLogic|
  (attachmentScore + introExtroCompat + communicationScore + decisionMakingCompat) / 4

/-! ### Spec-side factor definitions (§4.5 of the spec)

These follow the spec's words for the four compatibility factors, to be
compared with `calculateCompatibility`. -/

/-- Modelled from the spec: attachment-style pairing — both Secure → 1.0,
Anxious/Avoidant cross pairing → 0.3 in either direction, otherwise 0.5. -/
def specAttachmentFactor (a b : Character) : ℝ :=
  if a.psychologicalProfile.attachmentStyle = "Secure" ∧
      b.psychologicalProfile.attachmentStyle = "Secure" then 1
  else if a.psychologicalProfile.attachmentStyle = "Anxious" ∧
      b.psychologicalProfile.attachmentStyle = "Avoidant" then 0.3
  else if a.psychologicalProfile.attachmentStyle = "Avoidant" ∧
      b.psychologicalProfile.attachmentStyle = "Anxious" then 0.3
  else 0.5

/-- Modelled from the spec: introversion/extroversion factor — one minus
the absolute difference of the five-point ordinal values divided by 4. -/
def specIntroExtroFactor (a b : Character) : ℝ :=
  1 - |getIntroversionExtroversionValue a.psychologicalProfile.introversionExtroversion
        - getIntroversionExtroversionValue b.psychologicalProfile.introversionExtroversion| / 4

/-- Modelled from the spec: communication-style pairing table — matching
styles → 1, Direct/Indirect clash in either direction → 0.4,
other combinations → 0.6 (the 0.9 rows of the source are unreachable,
being subsumed by the matching case). -/
def specCommunicationFactor (a b : Character) : ℝ :=
  if a.communication.primaryStyle = b.communication.primaryStyle then 1
  else if (a.communication.primaryStyle = "Direct" ∧
        b.communication.primaryStyle = "Direct") ∨
      (a.communication.primaryStyle = "Analytical" ∧
        b.communication.primaryStyle = "Analytical") then 0.9
  else if (a.communication.primaryStyle = "Direct" ∧
        b.communication.primaryStyle = "Indirect") ∨
      (a.communication.primaryStyle = "Indirect" ∧
        b.communication.primaryStyle = "Direct") then 0.4
  else 0.6

/-- Modelled from the spec: decision factor — one minus the absolute
difference of the two emotion-vs-logic scalars. -/
def specDecisionFactor (a b : Character) : ℝ :=
  1 - |a.decisionMaking.emotionVsLogic - b.decisionMaking.emotionVsLogic|

end

/-- Stated from the claim's words: `p1` and `p2` are the largest and
second-largest values of the list `l`. -/
def IsTopTwo (l : List ℝ) (p1 p2 : ℝ) : Prop :=
  p1 ∈ l ∧ p2 ∈ l.erase p1 ∧ (∀ x ∈ l, x ≤ p1) ∧ ∀ x ∈ l.erase p1, x ≤ p2

/-- Two concrete profiles for the compatibility scenario of the spec. -/
def charA : Character :=
  { psychologicalProfile := ⟨"Ambivert", "Secure", "Neutral", []⟩
    socialHierarchyPosition := ⟨"Follower"⟩
    motivationsInsecurities := ⟨[], []⟩
    trustSignalsVulnerabilityMarkers := ⟨[]⟩
    communication := ⟨"Direct"⟩
    decisionMaking := ⟨0.4, "Moderate"⟩
    identityAnchors := ⟨[]⟩ }

def charB : Character :=
  { psychologicalProfile := ⟨"Ambivert", "Secure", "Neutral", []⟩
    socialHierarchyPosition := ⟨"Follower"⟩
    motivationsInsecurities := ⟨[], []⟩
    trustSignalsVulnerabilityMarkers := ⟨[]⟩
    communication := ⟨"Direct"⟩
    decisionMaking := ⟨0.6, "Moderate"⟩
    identityAnchors := ⟨[]⟩ }

/-- A fully populated concrete profile. -/
noncomputable def charW : Character :=
  { psychologicalProfile := ⟨"Introverted", "Anxious", "Skeptical", [⟨"Overthinking", 0.6⟩]⟩
    socialHierarchyPosition := ⟨"Outlier"⟩
    motivationsInsecurities := ⟨[⟨"Belonging", 0.5⟩], [⟨"Rejection", 0.5⟩]⟩
    trustSignalsVulnerabilityMarkers := ⟨[⟨"Shared interests", 0.5⟩]⟩
    communication := ⟨"Reserved"⟩
    decisionMaking := ⟨0.7, "Slow"⟩
    identityAnchors := ⟨[⟨"Relationships", 0.5, 0.5⟩]⟩ }

set_option maxRecDepth 8192

/-! ### Facts about the static tables -/

/-- Every prior probability in the table is strictly positive. -/
lemma PRIORS_probability_pos : ∀ pr ∈ PRIORS, 0 < pr.probability := by
  simp only [PRIORS, priors_introversionExtroversion, priors_attachmentStyle, priors_trustLevel,
    priors_vulnerabilities, priors_socialRole, priors_communicationStyle,
    priors_communicationChannel, priors_desires, priors_fears, priors_trustTriggers,
    priors_emotionVsLogic, priors_decisionPacing, priors_identityAnchors,
    List.forall_mem_append, List.forall_mem_cons, List.forall_mem_nil]
  norm_num

/-- Every trait name in the prior table is a non-empty string. -/
lemma PRIORS_trait_ne_empty : ∀ pr ∈ PRIORS, pr.trait ≠ "" := by
  simp only [PRIORS, priors_introversionExtroversion, priors_attachmentStyle, priors_trustLevel,
    priors_vulnerabilities, priors_socialRole, priors_communicationStyle,
    priors_communicationChannel, priors_desires, priors_fears, priors_trustTriggers,
    priors_emotionVsLogic, priors_decisionPacing, priors_identityAnchors,
    List.forall_mem_append, List.forall_mem_cons, List.forall_mem_nil]
  simp

/-- Every likelihood multiplier in the table is strictly positive. -/
lemma LIKELIHOOD_MULTIPLIERS_pos : ∀ lm ∈ LIKELIHOOD_MULTIPLIERS, 0 < lm.multiplier := by
  simp only [LIKELIHOOD_MULTIPLIERS, lik_HighlyIntroverted, lik_Introverted, lik_Extroverted,
    lik_HighlyExtroverted, lik_Anxious, lik_Avoidant, lik_FearfulAvoidant, lik_Secure,
    lik_HighlySkeptical, lik_Trusting, lik_Leader, lik_Follower, lik_Connector, lik_Outlier,
    lik_Direct, lik_Indirect, lik_Reserved, lik_Analytical, lik_Emotional,
    List.forall_mem_append, List.forall_mem_cons, List.forall_mem_nil]
  norm_num

/-- The multiplier lookup always yields a strictly positive value: either a
table entry (all of which are positive) or the fallback `1.0`. -/
lemma getLikelihoodMultiplier_pos (e t : String) : 0 < getLikelihoodMultiplier e t := by
  unfold getLikelihoodMultiplier
  cases h : LIKELIHOOD_MULTIPLIERS.find? (fun lm => lm.evidence == e && lm.trait == t) with
  | none => norm_num
  | some lm => exact LIKELIHOOD_MULTIPLIERS_pos lm (List.mem_of_find?_eq_some h)

/-- A trait row of a category is a row of the full prior table. -/
lemma mem_PRIORS_of_mem_getTraitsForCategory {t : PriorProbability} {c : String}
    (h : t ∈ getTraitsForCategory c) : t ∈ PRIORS :=
  (List.mem_filter.mp h).1

/-! ### General lemmas about the engine -/

/-- Folding addition over a list equals the initial value plus the sum. -/
lemma foldl_add_eq {α : Type} (f : α → ℝ) (l : List α) (init : ℝ) :
    l.foldl (fun a x => a + f x) init = init + (l.map f).sum := by
  induction l generalizing init with
  | nil => simp
  | cons x xs ih => simp [ih, add_assoc]

/-- The normalization factor is the sum of the unnormalized trait scores. -/
lemma calculateNormalizationFactor_eq (c : String) (ev : List EvidenceVariable) :
    calculateNormalizationFactor c ev
      = ((getTraitsForCategory c).map (fun t => traitScore t ev)).sum := by
  simp [calculateNormalizationFactor, foldl_add_eq]

/-- An unnormalized score is positive as soon as the prior is: every
multiplier raised to any real weight is positive. -/
lemma traitScore_pos (t : PriorProbability) (ev : List EvidenceVariable)
    (h : 0 < t.probability) : 0 < traitScore t ev := by
  unfold traitScore
  have key : ∀ (l : List EvidenceVariable) (x : ℝ), 0 < x →
      0 < l.foldl
        (fun posterior e =>
          posterior * Real.rpow ((getLikelihoodMultiplier e.trait t.trait : ℚ) : ℝ) e.probability)
        x := by
    intro l
    induction l with
    | nil => intro x hx; simpa using hx
    | cons e es ih =>
      intro x hx
      refine ih _ (mul_pos hx ?_)
      exact Real.rpow_pos_of_pos (by exact_mod_cast getLikelihoodMultiplier_pos e.trait t.trait) _
  exact key ev _ (by exact_mod_cast h)

/-- The normalization factor of a category with at least one prior row is
strictly positive. -/
lemma calculateNormalizationFactor_pos (c : String) (ev : List EvidenceVariable)
    (h : getTraitsForCategory c ≠ []) : 0 < calculateNormalizationFactor c ev := by
  rw [calculateNormalizationFactor_eq]
  apply List.sum_pos
  · intro x hx
    obtain ⟨t, ht, rfl⟩ := List.mem_map.mp hx
    exact traitScore_pos t ev
      (PRIORS_probability_pos t (mem_PRIORS_of_mem_getTraitsForCategory ht))
  · simpa using h




/-- Distributing a division over a list sum. -/
lemma sum_map_div {α : Type} (l : List α) (f : α → ℝ) (z : ℝ) :
    (l.map (fun x => f x / z)).sum = (l.map f).sum / z := by
  induction l with
  | nil => simp
  | cons x xs ih => simp [ih, add_div]

/-- When the normalization factor is positive every score gets divided by it. -/
lemma calculatePosteriors_eq_of_pos (c : String) (ev : List EvidenceVariable)
    (hZ : 0 < calculateNormalizationFactor c ev) :
    calculatePosteriors c ev = (getTraitsForCategory c).map
      (fun t => (t.trait, traitScore t ev / calculateNormalizationFactor c ev)) := by
  unfold calculatePosteriors
  refine List.map_congr_left ?_
  intro t _
  simp [hZ]

lemma getLikelihoodMultiplier_eq_one (e : String)
    (he : ∀ lm ∈ LIKELIHOOD_MULTIPLIERS, lm.evidence ≠ e) (t : String) :
    getLikelihoodMultiplier e t = 1 := by
  unfold getLikelihoodMultiplier
  cases h : LIKELIHOOD_MULTIPLIERS.find? (fun lm => lm.evidence == e && lm.trait == t) with
  | none => rfl
  | some lm =>
    have hm := List.mem_of_find?_eq_some h
    have hpred := List.find?_some h
    simp only [Bool.and_eq_true, beq_iff_eq] at hpred
    exact absurd hpred.1 (he lm hm)

lemma traitScore_neutral (t : PriorProbability) (e : String) (w : ℝ)
    (l1 l2 : List EvidenceVariable)
    (he : ∀ lm ∈ LIKELIHOOD_MULTIPLIERS, lm.evidence ≠ e) :
    traitScore t (l1 ++ ⟨e, w⟩ :: l2) = traitScore t (l1 ++ l2) := by
  unfold traitScore
  rw [List.foldl_append, List.foldl_append, List.foldl_cons]
  congr 1
  rw [getLikelihoodMultiplier_eq_one e he t.trait]
  simp

/-- With no evidence the unnormalized score is exactly the prior. -/
lemma traitScore_nil (t : PriorProbability) : traitScore t [] = ((t.probability : ℚ) : ℝ) := rfl

lemma calculatePosteriors_nil (c : String) (hne : getTraitsForCategory c ≠ []) :
    calculatePosteriors c [] = (getTraitsForCategory c).map
      (fun t => (t.trait,
        ((t.probability : ℚ) : ℝ)
          / ((getTraitsForCategory c).map (fun u => ((u.probability : ℚ) : ℝ))).sum)) := by
  have hZ := calculateNormalizationFactor_pos c [] hne
  rw [calculatePosteriors_eq_of_pos c [] hZ]
  refine List.map_congr_left ?_
  intro t _
  rw [traitScore_nil, calculateNormalizationFactor_eq]
  congr 1

lemma traits_attachmentStyle : getTraitsForCategory "attachmentStyle" = priors_attachmentStyle := rfl

lemma znf_attach : calculateNormalizationFactor "attachmentStyle" [] = 1 := by
  simp [calculateNormalizationFactor, traits_attachmentStyle, priors_attachmentStyle, traitScore]
  norm_num

lemma posts_attach : calculatePosteriors "attachmentStyle" [] =
    [("Secure", 0.55), ("Anxious", 0.20), ("Avoidant", 0.20), ("Fearful-Avoidant", 0.05)] := by
  simp [calculatePosteriors, znf_attach, traits_attachmentStyle, priors_attachmentStyle, traitScore]

example : ((getInferenceResult (performInference []) "attachmentStyle").map
    InferenceResult.recommendedTrait) = some "Secure" := by
  simp only [getInferenceResult,
    show (performInference []).posteriors.find? (fun p => p.1 == "attachmentStyle") =
      some ("attachmentStyle", calculatePosteriors "attachmentStyle" []) from rfl,
    Option.map_some]
  rw [posts_attach]
  simp [findHighestProbabilityTrait]
  norm_num

lemma find?_map_pair {g : String → List (String × ℝ)} :
    ∀ (cats : List String) (c : String), c ∈ cats →
      (cats.map fun x => (x, g x)).find? (fun p => p.1 == c) = some (c, g c) := by
  intro cats c hc
  induction cats with
  | nil => cases hc
  | cons a l ih =>
    rw [List.map_cons]
    by_cases h : a = c
    · subst h
      rw [List.find?_cons_of_pos]
      simp
    · rw [List.find?_cons_of_neg]
      · refine ih ?_
        rcases List.mem_cons.mp hc with h1 | h1
        · exact absurd h1.symm h
        · exact h1
      · simp [h]

/-- The thirteen categories of the prior table, in first-occurrence order. -/
lemma categories_eq : dedupKeepFirst (PRIORS.map fun p => p.category) =
    ["introversionExtroversion", "attachmentStyle", "trustLevel", "vulnerabilities",
     "socialRole", "communicationStyle", "communicationChannel", "desires", "fears",
     "trustTriggers", "emotionVsLogic", "decisionPacing", "identityAnchors"] := rfl

lemma getInferenceResult_performInference (ev : List EvidenceVariable) (c : String)
    (hc : c ∈ dedupKeepFirst (PRIORS.map fun p => p.category)) :
    getInferenceResult (performInference ev) c = some
      { category := c
        traits := calculatePosteriors c ev
        recommendedTrait := (findHighestProbabilityTrait (calculatePosteriors c ev)).1
        confidence := calculateConfidence (calculatePosteriors c ev) } := by
  unfold getInferenceResult performInference
  rw [find?_map_pair _ c hc]

lemma foldl_max_mem :
    ∀ (l : List (String × ℝ)) (acc : String × ℝ),
      l.foldl (fun acc p => if p.2 > acc.2 then p else acc) acc = acc ∨
      l.foldl (fun acc p => if p.2 > acc.2 then p else acc) acc ∈ l := by
  intro l
  induction l with
  | nil => intro acc; left; rfl
  | cons x xs ih =>
    intro acc
    rw [List.foldl_cons]
    rcases ih (if x.2 > acc.2 then x else acc) with h | h
    · rw [h]
      by_cases hx : x.2 > acc.2
      · right; rw [if_pos hx]; exact List.mem_cons_self x xs
      · left; rw [if_neg hx]
    · right; exact List.mem_cons_of_mem x h

lemma findHighest_mem (l : List (String × ℝ)) (hne : l ≠ [])
    (hpos : ∀ p ∈ l, 0 < p.2) : findHighestProbabilityTrait l ∈ l := by
  obtain ⟨x, xs, rfl⟩ := List.exists_cons_of_ne_nil hne
  unfold findHighestProbabilityTrait
  rw [List.foldl_cons]
  have hx : x.2 > (("", (0 : ℝ))).2 := hpos x (List.mem_cons_self x xs)
  rw [if_pos hx]
  rcases foldl_max_mem xs x with h | h
  · rw [h]; exact List.mem_cons_self x xs
  · exact List.mem_cons_of_mem x h

lemma calculatePosteriors_key_ne_empty (c : String) (ev : List EvidenceVariable) :
    ∀ p ∈ calculatePosteriors c ev, p.1 ≠ "" := by
  intro p hp
  unfold calculatePosteriors at hp
  simp only [List.mem_map] at hp
  obtain ⟨t, ht, rfl⟩ := hp
  exact PRIORS_trait_ne_empty t (mem_PRIORS_of_mem_getTraitsForCategory ht)

lemma calculatePosteriors_val_pos (c : String) (ev : List EvidenceVariable) :
    ∀ p ∈ calculatePosteriors c ev, 0 < p.2 := by
  intro p hp
  unfold calculatePosteriors at hp
  simp only [List.mem_map] at hp
  obtain ⟨t, ht, rfl⟩ := hp
  have hs := traitScore_pos t ev
    (PRIORS_probability_pos t (mem_PRIORS_of_mem_getTraitsForCategory ht))
  dsimp only
  split
  · next h => exact div_pos hs h
  · exact hs

lemma calculatePosteriors_ne_nil (c : String) (ev : List EvidenceVariable)
    (h : getTraitsForCategory c ≠ []) : calculatePosteriors c ev ≠ [] := by
  unfold calculatePosteriors
  simpa using h

lemma recommendedTrait_ne_empty (c : String) (ev : List EvidenceVariable)
    (h : getTraitsForCategory c ≠ []) :
    (findHighestProbabilityTrait (calculatePosteriors c ev)).1 ≠ "" :=
  calculatePosteriors_key_ne_empty c ev _
    (findHighest_mem _ (calculatePosteriors_ne_nil c ev h) (calculatePosteriors_val_pos c ev))

lemma topThree_ne_nil (l : List (String × ℝ)) (h : l ≠ []) : topThree l ≠ [] := by
  unfold topThree
  apply List.ne_nil_of_length_pos
  rw [List.length_take, List.length_insertionSort]
  have := List.length_pos.mpr h
  omega

lemma emotionLogicMap_ne_zero (s : String) : emotionLogicMap s ≠ 0 := by
  unfold emotionLogicMap
  split_ifs <;> norm_num

lemma traits_ne_nil_introversionExtroversion : getTraitsForCategory "introversionExtroversion" ≠ [] := by decide
lemma traits_ne_nil_attachmentStyle : getTraitsForCategory "attachmentStyle" ≠ [] := by decide
lemma traits_ne_nil_trustLevel : getTraitsForCategory "trustLevel" ≠ [] := by decide
lemma traits_ne_nil_vulnerabilities : getTraitsForCategory "vulnerabilities" ≠ [] := by decide
lemma traits_ne_nil_socialRole : getTraitsForCategory "socialRole" ≠ [] := by decide
lemma traits_ne_nil_communicationStyle : getTraitsForCategory "communicationStyle" ≠ [] := by decide
lemma traits_ne_nil_desires : getTraitsForCategory "desires" ≠ [] := by decide
lemma traits_ne_nil_fears : getTraitsForCategory "fears" ≠ [] := by decide
lemma traits_ne_nil_trustTriggers : getTraitsForCategory "trustTriggers" ≠ [] := by decide
lemma traits_ne_nil_emotionVsLogic : getTraitsForCategory "emotionVsLogic" ≠ [] := by decide
lemma traits_ne_nil_decisionPacing : getTraitsForCategory "decisionPacing" ≠ [] := by decide
lemma traits_ne_nil_identityAnchors : getTraitsForCategory "identityAnchors" ≠ [] := by decide

/-- After one run of `autocompleteCharacter`, all twelve recognized fields
hold truthy values. -/
lemma autocomplete_filled (p : Character) :
    (autocompleteCharacter p).psychologicalProfile.introversionExtroversion ≠ "" ∧
    (autocompleteCharacter p).psychologicalProfile.attachmentStyle ≠ "" ∧
    (autocompleteCharacter p).psychologicalProfile.trustLevel ≠ "" ∧
    (autocompleteCharacter p).psychologicalProfile.likelyVulnerabilities ≠ [] ∧
    (autocompleteCharacter p).socialHierarchyPosition.role ≠ "" ∧
    (autocompleteCharacter p).communication.primaryStyle ≠ "" ∧
    (autocompleteCharacter p).decisionMaking.emotionVsLogic ≠ 0 ∧
    (autocompleteCharacter p).decisionMaking.pacing ≠ "" ∧
    (autocompleteCharacter p).motivationsInsecurities.desires ≠ [] ∧
    (autocompleteCharacter p).motivationsInsecurities.fears ≠ [] ∧
    (autocompleteCharacter p).trustSignalsVulnerabilityMarkers.triggers ≠ [] ∧
    (autocompleteCharacter p).identityAnchors.coreAnchors ≠ [] := by
  unfold autocompleteCharacter
  set ev := extractEvidenceFromCharacter p with hev
  refine ⟨?_, ?_, ?_, ?_, ?_, ?_, ?_, ?_, ?_, ?_, ?_, ?_⟩
  · simp only [fillPsychologicalProfile]
    rw [getInferenceResult_performInference ev "introversionExtroversion" (by rw [categories_eq]; simp)]
    by_cases h : p.psychologicalProfile.introversionExtroversion = ""
    · simpa [h] using recommendedTrait_ne_empty _ ev traits_ne_nil_introversionExtroversion
    · simpa [h] using h
  · simp only [fillPsychologicalProfile]
    rw [getInferenceResult_performInference ev "attachmentStyle" (by rw [categories_eq]; simp)]
    by_cases h : p.psychologicalProfile.attachmentStyle = ""
    · simpa [h] using recommendedTrait_ne_empty _ ev traits_ne_nil_attachmentStyle
    · simpa [h] using h
  · simp only [fillPsychologicalProfile]
    rw [getInferenceResult_performInference ev "trustLevel" (by rw [categories_eq]; simp)]
    by_cases h : p.psychologicalProfile.trustLevel = ""
    · simpa [h] using recommendedTrait_ne_empty _ ev traits_ne_nil_trustLevel
    · simpa [h] using h
  · simp only [fillPsychologicalProfile]
    rw [getInferenceResult_performInference ev "vulnerabilities" (by rw [categories_eq]; simp)]
    by_cases h : p.psychologicalProfile.likelyVulnerabilities = []
    · have := topThree_ne_nil _ (calculatePosteriors_ne_nil "vulnerabilities" ev traits_ne_nil_vulnerabilities)
      simpa [h] using this
    · simpa [h] using h
  · simp only [fillSocialHierarchyPosition]
    rw [getInferenceResult_performInference ev "socialRole" (by rw [categories_eq]; simp)]
    by_cases h : p.socialHierarchyPosition.role = ""
    · simpa [h] using recommendedTrait_ne_empty _ ev traits_ne_nil_socialRole
    · simpa [h] using h
  · simp only [fillCommunication]
    rw [getInferenceResult_performInference ev "communicationStyle" (by rw [categories_eq]; simp)]
    by_cases h : p.communication.primaryStyle = ""
    · simpa [h] using recommendedTrait_ne_empty _ ev traits_ne_nil_communicationStyle
    · simpa [h] using h
  · simp only [fillDecisionMaking]
    rw [getInferenceResult_performInference ev "emotionVsLogic" (by rw [categories_eq]; simp)]
    by_cases h : p.decisionMaking.emotionVsLogic = 0
    · simpa [h] using emotionLogicMap_ne_zero _
    · simpa [h] using h
  · simp only [fillDecisionMaking]
    rw [getInferenceResult_performInference ev "decisionPacing" (by rw [categories_eq]; simp)]
    by_cases h : p.decisionMaking.pacing = ""
    · simpa [h] using recommendedTrait_ne_empty _ ev traits_ne_nil_decisionPacing
    · simpa [h] using h
  · simp only [fillMotivationsInsecurities]
    rw [getInferenceResult_performInference ev "desires" (by rw [categories_eq]; simp)]
    by_cases h : p.motivationsInsecurities.desires = []
    · have := topThree_ne_nil _ (calculatePosteriors_ne_nil "desires" ev traits_ne_nil_desires)
      simpa [h] using this
    · simpa [h] using h
  · simp only [fillMotivationsInsecurities]
    rw [getInferenceResult_performInference ev "fears" (by rw [categories_eq]; simp)]
    by_cases h : p.motivationsInsecurities.fears = []
    · have := topThree_ne_nil _ (calculatePosteriors_ne_nil "fears" ev traits_ne_nil_fears)
      simpa [h] using this
    · simpa [h] using h
  · simp only [fillTrustSignalsVulnerabilityMarkers]
    rw [getInferenceResult_performInference ev "trustTriggers" (by rw [categories_eq]; simp)]
    by_cases h : p.trustSignalsVulnerabilityMarkers.triggers = []
    · have := topThree_ne_nil _ (calculatePosteriors_ne_nil "trustTriggers" ev traits_ne_nil_trustTriggers)
      simpa [h] using this
    · simpa [h] using h
  · simp only [fillIdentityAnchors]
    rw [getInferenceResult_performInference ev "identityAnchors" (by rw [categories_eq]; simp)]
    by_cases h : p.identityAnchors.coreAnchors = []
    · have := topThree_ne_nil _ (calculatePosteriors_ne_nil "identityAnchors" ev traits_ne_nil_identityAnchors)
      simpa [h] using this
    · simpa [h] using h

lemma fillPsychologicalProfile_id (inference : BayesianInference) (p : PsychologicalProfile)
    (h1 : p.introversionExtroversion ≠ "") (h2 : p.attachmentStyle ≠ "")
    (h3 : p.trustLevel ≠ "") (h4 : p.likelyVulnerabilities ≠ []) :
    fillPsychologicalProfile inference p = p := by
  unfold fillPsychologicalProfile
  simp [h1, h2, h3, h4]

lemma fillSocialHierarchyPosition_id (inference : BayesianInference) (s : SocialHierarchyPosition)
    (h : s.role ≠ "") : fillSocialHierarchyPosition inference s = s := by
  unfold fillSocialHierarchyPosition
  simp [h]

lemma fillCommunication_id (inference : BayesianInference) (c : Communication)
    (h : c.primaryStyle ≠ "") : fillCommunication inference c = c := by
  unfold fillCommunication
  simp [h]

lemma fillDecisionMaking_id (inference : BayesianInference) (d : DecisionMaking)
    (h1 : d.emotionVsLogic ≠ 0) (h2 : d.pacing ≠ "") :
    fillDecisionMaking inference d = d := by
  unfold fillDecisionMaking
  simp [h1, h2]

lemma fillMotivationsInsecurities_id (inference : BayesianInference) (m : MotivationsInsecurities)
    (h1 : m.desires ≠ []) (h2 : m.fears ≠ []) :
    fillMotivationsInsecurities inference m = m := by
  unfold fillMotivationsInsecurities
  simp [h1, h2]

lemma fillTrustSignalsVulnerabilityMarkers_id (inference : BayesianInference)
    (t : TrustSignalsVulnerabilityMarkers) (h : t.triggers ≠ []) :
    fillTrustSignalsVulnerabilityMarkers inference t = t := by
  unfold fillTrustSignalsVulnerabilityMarkers
  simp [h]

lemma fillIdentityAnchors_id (inference : BayesianInference) (a : IdentityAnchors)
    (h : a.coreAnchors ≠ []) : fillIdentityAnchors inference a = a := by
  unfold fillIdentityAnchors
  simp [h]

lemma calculateCompatibility_eq_spec (a b : Character) :
    calculateCompatibility a b = (specAttachmentFactor a b + specIntroExtroFactor a b +
      specCommunicationFactor a b + specDecisionFactor a b) / 4 := rfl

lemma specAttachmentFactor_comm (a b : Character) :
    specAttachmentFactor a b = specAttachmentFactor b a := by
  unfold specAttachmentFactor
  split_ifs <;> first | rfl | simp_all

lemma specIntroExtroFactor_comm (a b : Character) :
    specIntroExtroFactor a b = specIntroExtroFactor b a := by
  unfold specIntroExtroFactor
  rw [abs_sub_comm]

lemma specCommunicationFactor_comm (a b : Character) :
    specCommunicationFactor a b = specCommunicationFactor b a := by
  unfold specCommunicationFactor
  by_cases h : a.communication.primaryStyle = b.communication.primaryStyle
  · simp [h]
  · have h' : ¬b.communication.primaryStyle = a.communication.primaryStyle := fun e => h e.symm
    rw [if_neg h, if_neg h']
    have hab : ¬((a.communication.primaryStyle = "Direct" ∧ b.communication.primaryStyle = "Direct") ∨
        (a.communication.primaryStyle = "Analytical" ∧ b.communication.primaryStyle = "Analytical")) := by
      rintro (⟨h1, h2⟩ | ⟨h1, h2⟩) <;> exact h (h1.trans h2.symm)
    have hba : ¬((b.communication.primaryStyle = "Direct" ∧ a.communication.primaryStyle = "Direct") ∨
        (b.communication.primaryStyle = "Analytical" ∧ a.communication.primaryStyle = "Analytical")) := by
      rintro (⟨h1, h2⟩ | ⟨h1, h2⟩) <;> exact h' (h1.trans h2.symm)
    rw [if_neg hab, if_neg hba]
    have hiff : ((a.communication.primaryStyle = "Direct" ∧ b.communication.primaryStyle = "Indirect") ∨
        (a.communication.primaryStyle = "Indirect" ∧ b.communication.primaryStyle = "Direct")) ↔
        ((b.communication.primaryStyle = "Direct" ∧ a.communication.primaryStyle = "Indirect") ∨
        (b.communication.primaryStyle = "Indirect" ∧ a.communication.primaryStyle = "Direct")) := by
      tauto
    rw [if_congr hiff rfl rfl]

lemma specDecisionFactor_comm (a b : Character) :
    specDecisionFactor a b = specDecisionFactor b a := by
  unfold specDecisionFactor
  rw [abs_sub_comm]





/-! ## The claims -/

lemma traits_socialRole : getTraitsForCategory "socialRole" = priors_socialRole := rfl

lemma scores_socialRole : (getTraitsForCategory "socialRole").map
    (fun t => (t.trait, traitScore t [⟨"Highly Introverted", 1⟩])) =
    [("Leader", 0.10), ("Follower", 0.50), ("Connector", 0.15),
     ("Outlier", 0.30), ("Gatekeeper", 0.05), ("Mediator", 0.05)] := by
  simp [traits_socialRole, priors_socialRole, traitScore, Real.rpow_one,
    show getLikelihoodMultiplier "Highly Introverted" "Leader" = 1 from rfl,
    show getLikelihoodMultiplier "Highly Introverted" "Outlier" = 2.0 from rfl,
    show getLikelihoodMultiplier "Highly Introverted" "Follower" = 1 from rfl,
    show getLikelihoodMultiplier "Highly Introverted" "Connector" = 1 from rfl,
    show getLikelihoodMultiplier "Highly Introverted" "Gatekeeper" = 1 from rfl,
    show getLikelihoodMultiplier "Highly Introverted" "Mediator" = 1 from rfl]
  norm_num

lemma znf_socialRole : calculateNormalizationFactor "socialRole" [⟨"Highly Introverted", 1⟩] = 1.15 := by
  simp [calculateNormalizationFactor, traits_socialRole, priors_socialRole, traitScore,
    Real.rpow_one,
    show getLikelihoodMultiplier "Highly Introverted" "Leader" = 1 from rfl,
    show getLikelihoodMultiplier "Highly Introverted" "Outlier" = 2.0 from rfl,
    show getLikelihoodMultiplier "Highly Introverted" "Follower" = 1 from rfl,
    show getLikelihoodMultiplier "Highly Introverted" "Connector" = 1 from rfl,
    show getLikelihoodMultiplier "Highly Introverted" "Gatekeeper" = 1 from rfl,
    show getLikelihoodMultiplier "Highly Introverted" "Mediator" = 1 from rfl]
  norm_num

lemma posts_socialRole : calculatePosteriors "socialRole" [⟨"Highly Introverted", 1⟩] =
    [("Leader", 0.10 / 1.15), ("Follower", 0.50 / 1.15), ("Connector", 0.15 / 1.15),
     ("Outlier", 0.30 / 1.15), ("Gatekeeper", 0.05 / 1.15), ("Mediator", 0.05 / 1.15)] := by
  simp [calculatePosteriors, znf_socialRole, traits_socialRole, priors_socialRole, traitScore,
    Real.rpow_one,
    show getLikelihoodMultiplier "Highly Introverted" "Leader" = 1 from rfl,
    show getLikelihoodMultiplier "Highly Introverted" "Outlier" = 2.0 from rfl,
    show getLikelihoodMultiplier "Highly Introverted" "Follower" = 1 from rfl,
    show getLikelihoodMultiplier "Highly Introverted" "Connector" = 1 from rfl,
    show getLikelihoodMultiplier "Highly Introverted" "Gatekeeper" = 1 from rfl,
    show getLikelihoodMultiplier "Highly Introverted" "Mediator" = 1 from rfl]
  norm_num

/-- C1: for evidence `[{trait: "Highly Introverted", weight 1.0}]` on
category `socialRole`, the unnormalized scores are Leader `0.10`,
Follower `0.50`, Connector `0.15`, Outlier `0.30` (prior `0.15` times the
authored multiplier `2.0`), Gatekeeper `0.05`, Mediator `0.05`; their sum
is `1.15`; `calculatePosteriors` returns exactly these scores divided by
`1.15`; and the trait recommended by `getInferenceResult` is `"Follower"`. -/
theorem C1_social_role_end_to_end :
    (getTraitsForCategory "socialRole").map
        (fun t => (t.trait, traitScore t [⟨"Highly Introverted", 1⟩])) =
      [("Leader", 0.10), ("Follower", 0.50), ("Connector", 0.15),
       ("Outlier", 0.30), ("Gatekeeper", 0.05), ("Mediator", 0.05)] ∧
    calculateNormalizationFactor "socialRole" [⟨"Highly Introverted", 1⟩] = 1.15 ∧
    calculatePosteriors "socialRole" [⟨"Highly Introverted", 1⟩] =
      [("Leader", 0.10 / 1.15), ("Follower", 0.50 / 1.15), ("Connector", 0.15 / 1.15),
       ("Outlier", 0.30 / 1.15), ("Gatekeeper", 0.05 / 1.15), ("Mediator", 0.05 / 1.15)] ∧
    ((getInferenceResult (performInference [⟨"Highly Introverted", 1⟩]) "socialRole").map
      InferenceResult.recommendedTrait) = some "Follower" := by
  refine ⟨scores_socialRole, znf_socialRole, posts_socialRole, ?_⟩
  rw [getInferenceResult_performInference [⟨"Highly Introverted", 1⟩] "socialRole"
    (by rw [categories_eq]; simp)]
  simp only [Option.map_some']
  rw [posts_socialRole]
  simp [findHighestProbabilityTrait]
  norm_num

/-- C2: for every category with at least one prior row and every evidence
list with weights in `[0, 1]`, the posterior values returned by
`calculatePosteriors` sum to `0` or `1` (here: always exactly `1`, since
the normalization factor of a non-empty category is positive). -/
theorem C2_posterior_sum_normalized (c : String) (ev : List EvidenceVariable)
    (hne : getTraitsForCategory c ≠ [])
    (hw : ∀ e ∈ ev, 0 ≤ e.probability ∧ e.probability ≤ 1) :
    ((calculatePosteriors c ev).map Prod.snd).sum = 0 ∨
      ((calculatePosteriors c ev).map Prod.snd).sum = 1 := by
  right
  have hZ := calculateNormalizationFactor_pos c ev hne
  rw [calculatePosteriors_eq_of_pos c ev hZ, List.map_map]
  have h1 : (Prod.snd ∘ fun t : PriorProbability =>
      (t.trait, traitScore t ev / calculateNormalizationFactor c ev))
      = fun t => traitScore t ev / calculateNormalizationFactor c ev := rfl
  rw [h1, sum_map_div, ← calculateNormalizationFactor_eq, div_self (ne_of_gt hZ)]

/-- C2 witness: the category `socialRole` with a fractional-weight
evidence list satisfies the hypotheses, and the posterior sum is 0 or 1. -/
theorem C2_posterior_sum_normalized_witness :
    getTraitsForCategory "socialRole" ≠ [] ∧
    (∀ e ∈ ([⟨"Highly Introverted", 1/2⟩] : List EvidenceVariable),
      0 ≤ e.probability ∧ e.probability ≤ 1) ∧
    (((calculatePosteriors "socialRole" [⟨"Highly Introverted", 1/2⟩]).map Prod.snd).sum = 0 ∨
      ((calculatePosteriors "socialRole" [⟨"Highly Introverted", 1/2⟩]).map Prod.snd).sum = 1) := by
  have h1 : getTraitsForCategory "socialRole" ≠ [] := by decide
  have h2 : ∀ e ∈ ([⟨"Highly Introverted", 1/2⟩] : List EvidenceVariable),
      0 ≤ e.probability ∧ e.probability ≤ 1 := by
    intro e he
    rw [List.mem_singleton] at he
    subst he
    norm_num
  exact ⟨h1, h2, C2_posterior_sum_normalized "socialRole" _ h1 h2⟩

/-- C3: whenever the normalization constant of a category is `0`,
`calculatePosteriors` returns `0` for every trait of the category (no
division by zero happens: the guard keeps the scores unnormalized, and a
zero sum of non-negative scores forces an empty category, since every
table prior is positive). -/
theorem C3_zero_normalization_all_zero (c : String) (ev : List EvidenceVariable)
    (hw : ∀ e ∈ ev, 0 ≤ e.probability ∧ e.probability ≤ 1)
    (hZ : calculateNormalizationFactor c ev = 0) :
    ∀ p ∈ calculatePosteriors c ev, p.2 = 0 := by
  intro p hp
  rcases eq_or_ne (getTraitsForCategory c) [] with h | h
  · unfold calculatePosteriors at hp
    rw [h] at hp
    simp at hp
  · exact absurd hZ (ne_of_gt (calculateNormalizationFactor_pos c ev h))

/-- C3 witness: a category with no prior rows has normalization constant
`0` and an all-zero (empty) posterior map. -/
theorem C3_zero_normalization_all_zero_witness :
    (∀ e ∈ ([] : List EvidenceVariable), 0 ≤ e.probability ∧ e.probability ≤ 1) ∧
    calculateNormalizationFactor "reputation" [] = 0 ∧
    ∀ p ∈ calculatePosteriors "reputation" [], p.2 = 0 := by
  have h1 : ∀ e ∈ ([] : List EvidenceVariable), 0 ≤ e.probability ∧ e.probability ≤ 1 := by
    simp
  have h2 : calculateNormalizationFactor "reputation" [] = 0 := rfl
  exact ⟨h1, h2, C3_zero_normalization_all_zero "reputation" [] h1 h2⟩

/-- C4: an evidence trait that appears in no likelihood row is neutral:
removing it from any position of the evidence list leaves the posterior
map of every category unchanged, and in particular such a trait alone
yields the posteriors of the empty evidence list. -/
theorem C4_neutral_evidence_no_effect :
    (∀ (e : String) (w : ℝ) (c : String) (l1 l2 : List EvidenceVariable),
      (∀ lm ∈ LIKELIHOOD_MULTIPLIERS, lm.evidence ≠ e) → 0 ≤ w → w ≤ 1 →
      calculatePosteriors c (l1 ++ ⟨e, w⟩ :: l2) = calculatePosteriors c (l1 ++ l2)) ∧
    (∀ (e : String) (w : ℝ) (c : String),
      (∀ lm ∈ LIKELIHOOD_MULTIPLIERS, lm.evidence ≠ e) → 0 ≤ w → w ≤ 1 →
      calculatePosteriors c [⟨e, w⟩] = calculatePosteriors c []) := by
  have main : ∀ (e : String) (w : ℝ) (c : String) (l1 l2 : List EvidenceVariable),
      (∀ lm ∈ LIKELIHOOD_MULTIPLIERS, lm.evidence ≠ e) → 0 ≤ w → w ≤ 1 →
      calculatePosteriors c (l1 ++ ⟨e, w⟩ :: l2) = calculatePosteriors c (l1 ++ l2) := by
    intro e w c l1 l2 he hw0 hw1
    have hs : ∀ t : PriorProbability,
        traitScore t (l1 ++ ⟨e, w⟩ :: l2) = traitScore t (l1 ++ l2) :=
      fun t => traitScore_neutral t e w l1 l2 he
    have hZ : calculateNormalizationFactor c (l1 ++ ⟨e, w⟩ :: l2)
        = calculateNormalizationFactor c (l1 ++ l2) := by
      rw [calculateNormalizationFactor_eq, calculateNormalizationFactor_eq]
      simp only [hs]
    unfold calculatePosteriors
    simp only [hs, hZ]
  refine ⟨main, fun e w c he hw0 hw1 => ?_⟩
  simpa using main e w c [] [] he hw0 hw1

/-- C4 witness: `"Loves hiking"` appears in no likelihood row; appending
it with weight `1/2` to an evidence list does not change the `socialRole`
posteriors. -/
theorem C4_neutral_evidence_no_effect_witness :
    (∀ lm ∈ LIKELIHOOD_MULTIPLIERS, lm.evidence ≠ "Loves hiking") ∧
    (0 : ℝ) ≤ 1 / 2 ∧ (1 : ℝ) / 2 ≤ 1 ∧
    calculatePosteriors "socialRole"
        ([⟨"Highly Introverted", 1⟩] ++ ⟨"Loves hiking", 1 / 2⟩ :: []) =
      calculatePosteriors "socialRole" ([⟨"Highly Introverted", 1⟩] ++ []) := by
  have h1 : ∀ lm ∈ LIKELIHOOD_MULTIPLIERS, lm.evidence ≠ "Loves hiking" := by decide
  exact ⟨h1, by norm_num, by norm_num,
    C4_neutral_evidence_no_effect.1 "Loves hiking" (1 / 2) "socialRole"
      [⟨"Highly Introverted", 1⟩] [] h1 (by norm_num) (by norm_num)⟩

/-- C5: with the empty evidence list the posteriors of any category with
at least one prior row are the priors renormalized by their sum; on
`attachmentStyle` (priors summing to `1.0`) the posteriors equal the
priors exactly and the recommended trait is `"Secure"`. -/
theorem C5_empty_evidence_prior :
    (∀ c : String, getTraitsForCategory c ≠ [] →
      calculatePosteriors c [] = (getTraitsForCategory c).map
        (fun t => (t.trait, ((t.probability : ℚ) : ℝ)
          / ((getTraitsForCategory c).map (fun u => ((u.probability : ℚ) : ℝ))).sum))) ∧
    calculatePosteriors "attachmentStyle" [] =
      [("Secure", 0.55), ("Anxious", 0.20), ("Avoidant", 0.20), ("Fearful-Avoidant", 0.05)] ∧
    ((getInferenceResult (performInference []) "attachmentStyle").map
      InferenceResult.recommendedTrait) = some "Secure" := by
  refine ⟨calculatePosteriors_nil, posts_attach, ?_⟩
  rw [getInferenceResult_performInference [] "attachmentStyle"
    (by rw [categories_eq]; simp)]
  simp only [Option.map_some']
  rw [posts_attach]
  simp [findHighestProbabilityTrait]
  norm_num

/-- C5 witness: the general renormalized-prior form instantiated at the
non-empty category `attachmentStyle`. -/
theorem C5_empty_evidence_prior_witness :
    getTraitsForCategory "attachmentStyle" ≠ [] ∧
    calculatePosteriors "attachmentStyle" [] = (getTraitsForCategory "attachmentStyle").map
      (fun t => (t.trait, ((t.probability : ℚ) : ℝ)
        / ((getTraitsForCategory "attachmentStyle").map
            (fun u => ((u.probability : ℚ) : ℝ))).sum)) := by
  have h1 : getTraitsForCategory "attachmentStyle" ≠ [] := by decide
  exact ⟨h1, C5_empty_evidence_prior.1 "attachmentStyle" h1⟩

/-- C6: `calculateConfidence` returns exactly `1.0` on a posterior map
with fewer than two entries, returns `min 1 (max 0 ((p1 - p2) * 3))` for
the largest and second-largest posterior values `p1, p2` otherwise, and
always lies in `[0, 1]`. -/
theorem C6_confidence_clamped_gap (posteriors : List (String × ℝ)) :
    (posteriors.length < 2 → calculateConfidence posteriors = 1) ∧
    (∀ p1 p2, IsTopTwo (posteriors.map Prod.snd) p1 p2 →
      calculateConfidence posteriors = min 1 (max 0 ((p1 - p2) * 3))) ∧
    0 ≤ calculateConfidence posteriors ∧ calculateConfidence posteriors ≤ 1 := by
  have hperm : (List.insertionSort (fun a b : ℝ => a ≥ b) (posteriors.map Prod.snd)).Perm
      (posteriors.map Prod.snd) := List.perm_insertionSort _ _
  have hsorted : List.Sorted (fun a b : ℝ => a ≥ b)
      (List.insertionSort (fun a b : ℝ => a ≥ b) (posteriors.map Prod.snd)) :=
    List.sorted_insertionSort _ _
  refine ⟨?_, ?_, ?_, ?_⟩
  · intro h
    simp only [calculateConfidence]
    rw [if_pos]
    rw [List.length_insertionSort, List.length_map]
    omega
  · rintro p1 p2 ⟨hp1, hp2, hmax1, hmax2⟩
    have hlen2 : 2 ≤ (posteriors.map Prod.snd).length := by
      have h1 : (posteriors.map Prod.snd).erase p1 ≠ [] := List.ne_nil_of_mem hp2
      have h2 := List.length_erase_of_mem hp1
      have h3 := List.length_pos.mpr h1
      omega
    have hslen : 2 ≤ (List.insertionSort (fun a b : ℝ => a ≥ b)
        (posteriors.map Prod.snd)).length := by
      rw [List.length_insertionSort]; exact hlen2
    rcases hsl : List.insertionSort (fun a b : ℝ => a ≥ b) (posteriors.map Prod.snd) with
      _ | ⟨a, _ | ⟨b, rest⟩⟩
    · rw [hsl] at hslen; simp at hslen
    · rw [hsl] at hslen; simp at hslen
    · rw [hsl] at hperm hsorted
      have hsort1 := List.sorted_cons.mp hsorted
      have hsort2 := List.sorted_cons.mp hsort1.2
      have ha : a = p1 := by
        have ha_mem : a ∈ posteriors.map Prod.snd := hperm.mem_iff.mp (List.mem_cons_self a _)
        refine le_antisymm (hmax1 a ha_mem) ?_
        have h : p1 ∈ a :: b :: rest := hperm.mem_iff.mpr hp1
        rcases List.mem_cons.mp h with h | h
        · exact le_of_eq h
        · exact hsort1.1 p1 h
      have herase : (b :: rest).Perm ((posteriors.map Prod.snd).erase p1) := by
        have h := hperm.erase p1
        rw [← ha] at h ⊢
        rwa [List.erase_cons_head] at h
      have hb : b = p2 := by
        have hb_mem : b ∈ (posteriors.map Prod.snd).erase p1 :=
          herase.mem_iff.mp (List.mem_cons_self b rest)
        refine le_antisymm (hmax2 b hb_mem) ?_
        have h : p2 ∈ b :: rest := herase.mem_iff.mpr hp2
        rcases List.mem_cons.mp h with h | h
        · exact le_of_eq h
        · exact hsort2.1 p2 h
      simp only [calculateConfidence]
      rw [hsl, if_neg (by simp)]
      simp [ha, hb]
  · simp only [calculateConfidence]
    split
    · norm_num
    · exact le_min (by norm_num) (le_max_left 0 _)
  · simp only [calculateConfidence]
    split
    · norm_num
    · exact min_le_left 1 _

/-- C6 witness: for the two-entry posterior map `[("a", 0.7), ("b", 0.2)]`
the values `0.7, 0.2` are the top two and the confidence is the clamped
tripled gap. -/
theorem C6_confidence_clamped_gap_witness :
    IsTopTwo (([("a", (0.7 : ℝ)), ("b", 0.2)]).map Prod.snd) 0.7 0.2 ∧
    calculateConfidence [("a", (0.7 : ℝ)), ("b", 0.2)] = min 1 (max 0 ((0.7 - 0.2) * 3)) := by
  have hmap : (([("a", (0.7 : ℝ)), ("b", 0.2)]).map Prod.snd) = [0.7, 0.2] := rfl
  have htop : IsTopTwo (([("a", (0.7 : ℝ)), ("b", 0.2)]).map Prod.snd) 0.7 0.2 := by
    rw [hmap]
    unfold IsTopTwo
    rw [List.erase_cons_head]
    refine ⟨by simp, by simp, ?_, ?_⟩
    · intro x hx
      simp at hx
      rcases hx with rfl | rfl <;> norm_num
    · intro x hx
      simp at hx
      subst hx
      norm_num
  exact ⟨htop, (C6_confidence_clamped_gap _).2.1 0.7 0.2 htop⟩


/-- C7: `autocompleteCharacter` returns a new profile value (the embedding
is a pure function of its input, mirroring the source's deep copy) and
every recognized field already populated in the input — non-empty string
field, non-empty list field, non-zero `emotionVsLogic` — appears unchanged
in the returned profile. -/
theorem C7_autocomplete_preserves_populated_fields (p : Character) :
    (p.psychologicalProfile.introversionExtroversion ≠ "" →
      (autocompleteCharacter p).psychologicalProfile.introversionExtroversion =
        p.psychologicalProfile.introversionExtroversion) ∧
    (p.psychologicalProfile.attachmentStyle ≠ "" →
      (autocompleteCharacter p).psychologicalProfile.attachmentStyle =
        p.psychologicalProfile.attachmentStyle) ∧
    (p.psychologicalProfile.trustLevel ≠ "" →
      (autocompleteCharacter p).psychologicalProfile.trustLevel =
        p.psychologicalProfile.trustLevel) ∧
    (p.psychologicalProfile.likelyVulnerabilities ≠ [] →
      (autocompleteCharacter p).psychologicalProfile.likelyVulnerabilities =
        p.psychologicalProfile.likelyVulnerabilities) ∧
    (p.socialHierarchyPosition.role ≠ "" →
      (autocompleteCharacter p).socialHierarchyPosition.role =
        p.socialHierarchyPosition.role) ∧
    (p.communication.primaryStyle ≠ "" →
      (autocompleteCharacter p).communication.primaryStyle =
        p.communication.primaryStyle) ∧
    (p.decisionMaking.emotionVsLogic ≠ 0 →
      (autocompleteCharacter p).decisionMaking.emotionVsLogic =
        p.decisionMaking.emotionVsLogic) ∧
    (p.decisionMaking.pacing ≠ "" →
      (autocompleteCharacter p).decisionMaking.pacing = p.decisionMaking.pacing) ∧
    (p.motivationsInsecurities.desires ≠ [] →
      (autocompleteCharacter p).motivationsInsecurities.desires =
        p.motivationsInsecurities.desires) ∧
    (p.motivationsInsecurities.fears ≠ [] →
      (autocompleteCharacter p).motivationsInsecurities.fears =
        p.motivationsInsecurities.fears) ∧
    (p.trustSignalsVulnerabilityMarkers.triggers ≠ [] →
      (autocompleteCharacter p).trustSignalsVulnerabilityMarkers.triggers =
        p.trustSignalsVulnerabilityMarkers.triggers) ∧
    (p.identityAnchors.coreAnchors ≠ [] →
      (autocompleteCharacter p).identityAnchors.coreAnchors =
        p.identityAnchors.coreAnchors) := by
  refine ⟨?_, ?_, ?_, ?_, ?_, ?_, ?_, ?_, ?_, ?_, ?_, ?_⟩ <;> intro h
  · simp [autocompleteCharacter, fillPsychologicalProfile, h]
  · simp [autocompleteCharacter, fillPsychologicalProfile, h]
  · simp [autocompleteCharacter, fillPsychologicalProfile, h]
  · simp [autocompleteCharacter, fillPsychologicalProfile, h]
  · simp [autocompleteCharacter, fillSocialHierarchyPosition, h]
  · simp [autocompleteCharacter, fillCommunication, h]
  · simp [autocompleteCharacter, fillDecisionMaking, h]
  · simp [autocompleteCharacter, fillDecisionMaking, h]
  · simp [autocompleteCharacter, fillMotivationsInsecurities, h]
  · simp [autocompleteCharacter, fillMotivationsInsecurities, h]
  · simp [autocompleteCharacter, fillTrustSignalsVulnerabilityMarkers, h]
  · simp [autocompleteCharacter, fillIdentityAnchors, h]

/-- C7 witness: on the fully populated profile `charW` every recognized
field survives autocompletion unchanged. -/
theorem C7_autocomplete_preserves_populated_fields_witness :
    (autocompleteCharacter charW).psychologicalProfile.introversionExtroversion =
      charW.psychologicalProfile.introversionExtroversion ∧
    (autocompleteCharacter charW).psychologicalProfile.attachmentStyle =
      charW.psychologicalProfile.attachmentStyle ∧
    (autocompleteCharacter charW).psychologicalProfile.trustLevel =
      charW.psychologicalProfile.trustLevel ∧
    (autocompleteCharacter charW).psychologicalProfile.likelyVulnerabilities =
      charW.psychologicalProfile.likelyVulnerabilities ∧
    (autocompleteCharacter charW).socialHierarchyPosition.role =
      charW.socialHierarchyPosition.role ∧
    (autocompleteCharacter charW).communication.primaryStyle =
      charW.communication.primaryStyle ∧
    (autocompleteCharacter charW).decisionMaking.emotionVsLogic =
      charW.decisionMaking.emotionVsLogic ∧
    (autocompleteCharacter charW).decisionMaking.pacing = charW.decisionMaking.pacing ∧
    (autocompleteCharacter charW).motivationsInsecurities.desires =
      charW.motivationsInsecurities.desires ∧
    (autocompleteCharacter charW).motivationsInsecurities.fears =
      charW.motivationsInsecurities.fears ∧
    (autocompleteCharacter charW).trustSignalsVulnerabilityMarkers.triggers =
      charW.trustSignalsVulnerabilityMarkers.triggers ∧
    (autocompleteCharacter charW).identityAnchors.coreAnchors =
      charW.identityAnchors.coreAnchors := by
  obtain ⟨h1, h2, h3, h4, h5, h6, h7, h8, h9, h10, h11, h12⟩ :=
    C7_autocomplete_preserves_populated_fields charW
  exact ⟨h1 (by simp [charW]), h2 (by simp [charW]), h3 (by simp [charW]),
    h4 (by simp [charW]), h5 (by simp [charW]), h6 (by simp [charW]),
    h7 (by norm_num [charW]), h8 (by simp [charW]), h9 (by simp [charW]),
    h10 (by simp [charW]), h11 (by simp [charW]), h12 (by simp [charW])⟩

/-- C8: `autocompleteCharacter` is idempotent — the first run fills every
recognized unset field with a truthy value (non-empty recommended trait,
non-empty top-3 list, non-zero `emotionLogicMap` value), so every guard of
the second run fails and the second run returns its input unchanged. -/
theorem C8_autocomplete_idempotent (p : Character) :
    autocompleteCharacter (autocompleteCharacter p) = autocompleteCharacter p := by
  obtain ⟨f1, f2, f3, f4, f5, f6, f7, f8, f9, f10, f11, f12⟩ := autocomplete_filled p
  conv_lhs => rw [autocompleteCharacter]
  rw [fillPsychologicalProfile_id _ _ f1 f2 f3 f4,
    fillSocialHierarchyPosition_id _ _ f5,
    fillCommunication_id _ _ f6,
    fillDecisionMaking_id _ _ f7 f8,
    fillMotivationsInsecurities_id _ _ f9 f10,
    fillTrustSignalsVulnerabilityMarkers_id _ _ f11,
    fillIdentityAnchors_id _ _ f12]

/-- C9: `calculateCompatibility` is the unweighted arithmetic mean of the
four factor scores described by the spec (attachment pairing table,
introversion/extroversion distance, communication pairing table, decision
distance), and the concrete two-Secure / same-bucket / both-Direct /
`0.4` vs `0.6` scenario scores exactly `0.95`. -/
theorem C9_compatibility_mean_of_four_factors :
    (∀ a b : Character,
      0 ≤ a.decisionMaking.emotionVsLogic → a.decisionMaking.emotionVsLogic ≤ 1 →
      0 ≤ b.decisionMaking.emotionVsLogic → b.decisionMaking.emotionVsLogic ≤ 1 →
      calculateCompatibility a b = (specAttachmentFactor a b + specIntroExtroFactor a b +
        specCommunicationFactor a b + specDecisionFactor a b) / 4) ∧
    calculateCompatibility charA charB = 0.95 := by
  constructor
  · intro a b h1 h2 h3 h4
    exact calculateCompatibility_eq_spec a b
  · rw [calculateCompatibility_eq_spec]
    simp only [specAttachmentFactor, specIntroExtroFactor, specCommunicationFactor,
      specDecisionFactor, getIntroversionExtroversionValue, charA, charB]
    norm_num
    rw [abs_of_nonneg (by norm_num : (0 : ℝ) ≤ 1 / 5)]
    norm_num

/-- C9 witness: the factor-mean form instantiated at the two concrete
profiles `charA`, `charB`, whose `emotionVsLogic` values lie in `[0, 1]`. -/
theorem C9_compatibility_mean_of_four_factors_witness :
    (0 ≤ charA.decisionMaking.emotionVsLogic ∧ charA.decisionMaking.emotionVsLogic ≤ 1 ∧
      0 ≤ charB.decisionMaking.emotionVsLogic ∧ charB.decisionMaking.emotionVsLogic ≤ 1) ∧
    calculateCompatibility charA charB = (specAttachmentFactor charA charB +
      specIntroExtroFactor charA charB + specCommunicationFactor charA charB +
      specDecisionFactor charA charB) / 4 := by
  have h1 : (0 : ℝ) ≤ charA.decisionMaking.emotionVsLogic := by norm_num [charA]
  have h2 : charA.decisionMaking.emotionVsLogic ≤ 1 := by norm_num [charA]
  have h3 : (0 : ℝ) ≤ charB.decisionMaking.emotionVsLogic := by norm_num [charB]
  have h4 : charB.decisionMaking.emotionVsLogic ≤ 1 := by norm_num [charB]
  exact ⟨⟨h1, h2, h3, h4⟩,
    C9_compatibility_mean_of_four_factors.1 charA charB h1 h2 h3 h4⟩

/-- C10: `calculateCompatibility` is symmetric in its two arguments: every
one of the four factors is invariant under swapping the two profiles. -/
theorem C10_compatibility_symmetric (a b : Character) :
    calculateCompatibility a b = calculateCompatibility b a := by
  rw [calculateCompatibility_eq_spec, calculateCompatibility_eq_spec,
    specAttachmentFactor_comm, specIntroExtroFactor_comm, specCommunicationFactor_comm,
    specDecisionFactor_comm]

end SocialProfiler
